import Mathlib

/-!
Shallow embedding of the transaction persistence and query layer of the
`nestjs-orders-payment-transactions` service, together with its
order-existence validation gate:

* `src/transactions/schemas/payment-transaction.schema.ts` — the data model
  (enums and the persisted `PaymentTransaction` entity);
* `src/orders/orders-client.service.ts` — `OrdersClientService.validateOrderExists`;
* `src/transactions/transactions.service.ts` — `TransactionsService.create`,
  `findByOrderId`, `getCountsByOrderIds`, `deleteByOrderId`, `mapToResponseDto`;
* `src/transactions/dto/request/create-transaction.dto.ts` and
  `get-transactions.dto.ts` — the class-validator constraints applied by the
  global validation pipe before the service is reached.

The MongoDB collection is modelled as a list of documents in insertion order.
`find().sort().skip().limit()` is modelled with a stable sort by the sort
key, `aggregate([$match,$group])` by filtering and grouping, `deleteMany` by
filtering.  JavaScript objects used as string-keyed maps
(`Record<string, number>`) are modelled as functions `String → Option Nat`.
Timestamps are modelled as naturals; one `now` parameter stands for the clock
during a single request.  The Mongo-generated `_id` is a `String` parameter.
-/

namespace OrdersPayment

/-- `enum Currency` of `payment-transaction.schema.ts`. -/
inductive Currency
  | USD | EUR | UAH | GBP
deriving DecidableEq, Repr

/-- `enum TransactionType` of `payment-transaction.schema.ts`. -/
inductive TransactionType
  | PAYMENT | REFUND
deriving DecidableEq, Repr

/-- `enum TransactionStatus` of `payment-transaction.schema.ts`. -/
inductive TransactionStatus
  | PENDING | COMPLETED | FAILED
deriving DecidableEq, Repr

/-- `enum PaymentMethod` of `payment-transaction.schema.ts`. -/
inductive PaymentMethod
  | CARD | CASH | PAYPAL
deriving DecidableEq, Repr

/-- The open `metadata` map (`Record<string, any>`): an opaque string-keyed
association list, stored and returned verbatim. -/
abbrev Metadata := List (String × String)

/-- `CreatePaymentTransactionDto` (`dto/request/create-transaction.dto.ts`).
Optional fields (`@IsOptional()`) are `Option`s; `transactionTime` is a
timestamp (`Nat`).  `amount` is the decimal transaction amount, carried as an
integer number of minor units. -/
structure CreatePaymentTransactionDto where
  orderId : String
  amount : Int
  currency : Option Currency
  type : TransactionType
  status : TransactionStatus
  paymentMethod : PaymentMethod
  transactionReference : Option String
  description : Option String
  transactionTime : Option Nat
  processedBy : Option String
  metadata : Option Metadata
deriving DecidableEq, Repr

/-- The persisted `PaymentTransaction` document (`@Schema({ timestamps: true })`
class of `payment-transaction.schema.ts`), after Mongoose has applied the
schema defaults and assigned `_id`, `createdAt` and `updatedAt`. -/
structure PaymentTransaction where
  _id : String
  orderId : String
  amount : Int
  currency : Currency
  type : TransactionType
  status : TransactionStatus
  paymentMethod : PaymentMethod
  transactionReference : Option String
  description : Option String
  transactionTime : Nat
  processedBy : Option String
  metadata : Option Metadata
  createdAt : Nat
  updatedAt : Nat
deriving DecidableEq, Repr

/-- The persisted collection, in insertion order. -/
abbrev Store := List PaymentTransaction

/-- `PaymentTransactionResponseDto` (`dto/response/transaction-response.dto.ts`):
the public response shape. -/
structure PaymentTransactionResponseDto where
  id : String
  orderId : String
  amount : Int
  currency : Currency
  type : TransactionType
  status : TransactionStatus
  paymentMethod : PaymentMethod
  transactionReference : Option String
  description : Option String
  transactionTime : Nat
  processedBy : Option String
  metadata : Option Metadata
  createdAt : Nat
  updatedAt : Nat
deriving DecidableEq, Repr

/-- `TransactionsService.mapToResponseDto` (`transactions.service.ts`):
copies every stored field, rendering `_id` as the public `id`. -/
def mapToResponseDto (t : PaymentTransaction) : PaymentTransactionResponseDto :=
  { id := t._id
    orderId := t.orderId
    amount := t.amount
    currency := t.currency
    type := t.type
    status := t.status
    paymentMethod := t.paymentMethod
    transactionReference := t.transactionReference
    description := t.description
    transactionTime := t.transactionTime
    processedBy := t.processedBy
    metadata := t.metadata
    createdAt := t.createdAt
    updatedAt := t.updatedAt }

/-- The `OrderResponse` payload of `orders-client.service.ts` (order summary
with a customer reference). -/
structure OrderResponse where
  id : String
  amount : Int
  status : String
  customerId : String
  customerFirstName : String
  customerLastName : String
deriving DecidableEq, Repr

/-- Outcome of the outbound `GET /api/orders/:id` call made through the Axios
`HttpService`: a successful response, an `AxiosError` (with the HTTP status of
`error.response`, when a response was received, and `error.message`), or any
other thrown error. -/
inductive LookupOutcome
  | ok (resp : OrderResponse)
  | axiosError (status : Option Nat) (msg : String)
  | otherError (msg : String)
deriving DecidableEq, Repr

/-- Errors thrown by `validateOrderExists`: the `NotFoundException` (carrying
the orderId interpolated into its message), the generic
`Error('Failed to validate order: ...')` raised in production, or a non-Axios
error rethrown unchanged. -/
inductive ValidateErr
  | notFoundException (orderId : String)
  | failedToValidate (msg : String)
  | rethrown (msg : String)
deriving DecidableEq, Repr

/-- `OrdersClientService.validateOrderExists` (`orders-client.service.ts`):
`env` is `process.env.NODE_ENV` (`none` when unset).  On success returns the
order data; on an `AxiosError` with a 404 response throws `NotFoundException`;
on any other `AxiosError` either returns `undefined` (modelled `none`) outside
production or throws in production; rethrows non-Axios errors. -/
def validateOrderExists (env : Option String) (lookup : LookupOutcome)
    (orderId : String) : Except ValidateErr (Option OrderResponse) :=
  match lookup with
  | .ok resp => .ok (some resp)
  | .axiosError status msg =>
      if status = some 404 then
        .error (.notFoundException orderId)
      else if env ≠ some "production" then
        .ok none
      else
        .error (.failedToValidate ("Failed to validate order: " ++ msg))
  | .otherError msg => .error (.rethrown msg)

/-- The observable actions `TransactionsService.create` performs, in program
order: the awaited call to `validateOrderExists`, the two conditional default
assignments, and the `save()` on the new model instance. -/
inductive Step
  | callValidator
  | assignTransactionTime
  | assignCurrency
  | save
deriving DecidableEq, Repr

/-- `TransactionsService.create` (`transactions.service.ts`), transcribed in
statement order: first awaits `validateOrderExists` (propagating its error,
in which case nothing is persisted), then defaults an absent
`transactionTime` to the current time and an absent `currency` to `UAH`,
then constructs the document and saves it (Mongoose assigns `_id` — the
`genId` parameter — and, via `timestamps: true`, `createdAt`/`updatedAt`).
Returns the mapped response, the new store, and the trace of steps. -/
def create (env : Option String) (lookup : LookupOutcome) (now : Nat)
    (genId : String) (dto : CreatePaymentTransactionDto) (store : Store) :
    Except ValidateErr PaymentTransactionResponseDto × Store × List Step :=
  match validateOrderExists env lookup dto.orderId with
  | .error e => (.error e, store, [.callValidator])
  | .ok _ =>
      let dto1 := if dto.transactionTime.isNone then
          { dto with transactionTime := some now } else dto
      let steps1 := if dto.transactionTime.isNone then
          [Step.assignTransactionTime] else []
      let dto2 := if dto1.currency.isNone then
          { dto1 with currency := some Currency.UAH } else dto1
      let steps2 := if dto1.currency.isNone then [Step.assignCurrency] else []
      let doc : PaymentTransaction :=
        { _id := genId
          orderId := dto2.orderId
          amount := dto2.amount
          currency := dto2.currency.getD Currency.UAH
          type := dto2.type
          status := dto2.status
          paymentMethod := dto2.paymentMethod
          transactionReference := dto2.transactionReference
          description := dto2.description
          transactionTime := dto2.transactionTime.getD now
          processedBy := dto2.processedBy
          metadata := dto2.metadata
          createdAt := now
          updatedAt := now }
      (.ok (mapToResponseDto doc), store ++ [doc],
        Step.callValidator :: (steps1 ++ steps2 ++ [Step.save]))

/-- Hexadecimal digit test, as used by the UUID format check. -/
def isHexDigit (c : Char) : Bool :=
  c.isDigit || (('a' ≤ c) && (c ≤ 'f')) || (('A' ≤ c) && (c ≤ 'F'))

/-- The `@IsUUID()` constraint of class-validator: 8-4-4-4-12 hexadecimal
groups separated by dashes. -/
def isUUID (s : String) : Bool :=
  let cs := s.toList
  cs.length == 36 &&
    (List.range 36).all fun i =>
      if i == 8 || i == 13 || i == 18 || i == 23 then cs.getD i ' ' == '-'
      else isHexDigit (cs.getD i ' ')

/-- The class-validator constraints of `CreatePaymentTransactionDto` enforced
by the global validation pipe before `TransactionsService.create` runs:
`@IsUUID()` on `orderId` and `@IsPositive()` on `amount` (the enum and
string constraints are carried by the field types of the embedding). -/
def validCreateDto (dto : CreatePaymentTransactionDto) : Bool :=
  isUUID dto.orderId && decide (0 < dto.amount)

/-- Errors surfaced by the create endpoint: a validation-pipe rejection
(`400 InvalidInput`) or an error propagated from `validateOrderExists`. -/
inductive CreateError
  | invalidInput
  | validation (e : ValidateErr)
deriving DecidableEq, Repr

/-- The `POST /transactions` endpoint: the global validation pipe checks the
DTO first and rejects with `invalidInput` — before the order lookup or the
store is touched — otherwise the request is handed to
`TransactionsService.create`. -/
def handleCreate (env : Option String) (lookup : LookupOutcome) (now : Nat)
    (genId : String) (dto : CreatePaymentTransactionDto) (store : Store) :
    Except CreateError PaymentTransactionResponseDto × Store × List Step :=
  if validCreateDto dto then
    let r := create env lookup now genId dto store
    (r.1.mapError CreateError.validation, r.2.1, r.2.2)
  else
    (.error .invalidInput, store, [])

/-- `GetPaymentTransactionsDto` (`dto/request/get-transactions.dto.ts`):
`size` (1–100, default 10) and `from` (≥ 0, default 0); the source field
`from` is a Lean keyword, rendered `fromIdx`. -/
structure GetPaymentTransactionsDto where
  orderId : String
  size : Nat := 10
  fromIdx : Nat := 0
deriving DecidableEq, Repr

/-- The Mongo sort order of `.sort({ transactionTime: -1 })`: descending by
`transactionTime`. -/
def txTimeGe (a b : PaymentTransaction) : Prop :=
  b.transactionTime ≤ a.transactionTime

instance : DecidableRel txTimeGe :=
  fun a b => inferInstanceAs (Decidable (b.transactionTime ≤ a.transactionTime))

/-- `TransactionsService.findByOrderId` (`transactions.service.ts`):
`find({ orderId }).sort({ transactionTime: -1 }).skip(from).limit(size)`,
mapped through `mapToResponseDto`.  The sort is modelled by a stable sort by
the sort key.  A read-only query: the store comes back unchanged. -/
def findByOrderId (dto : GetPaymentTransactionsDto) (store : Store) :
    List PaymentTransactionResponseDto × Store :=
  let txs := (((List.insertionSort txTimeGe
      (store.filter (fun d => d.orderId == dto.orderId))).drop
        dto.fromIdx).take dto.size)
  (txs.map mapToResponseDto, store)

/-- `PaymentTransactionCountsRequestDto`
(`dto/request/transaction-counts-request.dto.ts`). -/
structure PaymentTransactionCountsRequestDto where
  orderIds : List String
deriving DecidableEq, Repr

/-- A JavaScript object used as a `Record<string, number>`: a string-keyed
partial map. -/
abbrev CountsRecord := String → Option Nat

/-- `counts[k] = v` on a `Record<string, number>`. -/
def recSet (m : CountsRecord) (k : String) (v : Nat) : CountsRecord :=
  fun x => if x = k then some v else m x

/-- The `$match: { orderId: { $in: orderIds } }` stage: documents whose
`orderId` is among the requested ids. -/
def matchedDocs (store : Store) (orderIds : List String) : Store :=
  store.filter (fun d => orderIds.contains d.orderId)

/-- The `$group: { _id: '$orderId', count: { $sum: 1 } }` stage over the
matched documents: one row per distinct `orderId` present, with the number of
matched documents bearing it. -/
def aggregateCounts (store : Store) (orderIds : List String) :
    List (String × Nat) :=
  (((matchedDocs store orderIds).map (fun d => d.orderId)).dedup).map
    fun oid =>
      (oid, ((matchedDocs store orderIds).filter
        (fun d => d.orderId == oid)).length)

/-- `TransactionsService.getCountsByOrderIds` (`transactions.service.ts`):
runs the `$match`/`$group` aggregation, initialises every requested id to 0
in a fresh record, then overwrites with the aggregated counts.  A read-only
query: the store comes back unchanged. -/
def getCountsByOrderIds (requestDto : PaymentTransactionCountsRequestDto)
    (store : Store) : CountsRecord × Store :=
  let init := requestDto.orderIds.foldl (fun m oid => recSet m oid 0)
    (fun _ => none)
  let counts := (aggregateCounts store requestDto.orderIds).foldl
    (fun m g => recSet m g.1 g.2) init
  (counts, store)

/-- `TransactionsService.deleteByOrderId` (`transactions.service.ts`):
`deleteMany({ orderId })`, returning `deletedCount` and the store with every
document of that order removed. -/
def deleteByOrderId (orderId : String) (store : Store) : Nat × Store :=
  ((store.filter (fun d => d.orderId == orderId)).length,
   store.filter (fun d => !(d.orderId == orderId)))

/-- The document `create` persists for a given input: the dto after default
normalization, with the generated id and the `timestamps: true` fields. -/
def mkDoc (dto : CreatePaymentTransactionDto) (now : Nat) (genId : String) :
    PaymentTransaction :=
  { _id := genId
    orderId := dto.orderId
    amount := dto.amount
    currency := dto.currency.getD Currency.UAH
    type := dto.type
    status := dto.status
    paymentMethod := dto.paymentMethod
    transactionReference := dto.transactionReference
    description := dto.description
    transactionTime := dto.transactionTime.getD now
    processedBy := dto.processedBy
    metadata := dto.metadata
    createdAt := now
    updatedAt := now }

/-- When order validation succeeds, `create` persists exactly `mkDoc` and its
trace is the validator call, the conditional default assignments, and the
save. -/
theorem create_validated (env : Option String) (lookup : LookupOutcome)
    (now : Nat) (genId : String) (dto : CreatePaymentTransactionDto)
    (store : Store) (r : Option OrderResponse)
    (h : validateOrderExists env lookup dto.orderId = .ok r) :
    create env lookup now genId dto store =
      (.ok (mapToResponseDto (mkDoc dto now genId)),
       store ++ [mkDoc dto now genId],
       Step.callValidator ::
        ((if dto.transactionTime.isNone then [Step.assignTransactionTime]
          else []) ++
         (if dto.currency.isNone then [Step.assignCurrency] else []) ++
         [Step.save])) := by
  cases htime : dto.transactionTime <;> cases hcur : dto.currency <;>
    simp [create, h, mkDoc, htime, hcur]

/-- A sample order id (from the repository's own examples). -/
def uuidA : String := "e7c4ff4c-5fcd-4d03-bed1-9cb8a12ff8dc"

/-- A sample order summary returned by the Order Lookup collaborator. -/
def sampleOrder : OrderResponse :=
  { id := uuidA, amount := 100, status := "PAID", customerId := "c1",
    customerFirstName := "Ada", customerLastName := "Lovelace" }

/-- A sample create request. -/
def sampleDto : CreatePaymentTransactionDto :=
  { orderId := uuidA, amount := 150, currency := some Currency.UAH,
    type := TransactionType.PAYMENT, status := TransactionStatus.COMPLETED,
    paymentMethod := PaymentMethod.CARD,
    transactionReference := some "TXN-001", description := none,
    transactionTime := some 100, processedBy := none, metadata := none }

/-- A create request with a non-positive amount. -/
def negDto : CreatePaymentTransactionDto := { sampleDto with amount := -5 }

/-- A create request leaving `transactionTime` and `currency` absent. -/
def bareDto : CreatePaymentTransactionDto :=
  { sampleDto with transactionTime := none, currency := none }

/-- C9: the degraded-mode bypass applies only to Axios transport errors —
any non-Axios failure of the lookup is rethrown unchanged by
`validateOrderExists` in every environment. -/
theorem validateOrderExists_rethrows_non_axios (env : Option String)
    (msg orderId : String) :
    validateOrderExists env (.otherError msg) orderId =
      .error (.rethrown msg) := rfl

/-- C2: on a 404 from the Order Lookup collaborator, `validateOrderExists`
fails with the not-found error carrying the orderId, `create` propagates it,
and no record is persisted (the store is unchanged). -/
theorem create_orderNotFound_on_404 (env : Option String) (msg : String)
    (now : Nat) (genId : String) (dto : CreatePaymentTransactionDto)
    (store : Store) :
    validateOrderExists env (.axiosError (some 404) msg) dto.orderId =
      .error (.notFoundException dto.orderId)
    ∧ create env (.axiosError (some 404) msg) now genId dto store =
        (.error (.notFoundException dto.orderId), store,
         [Step.callValidator]) := by
  have hv : validateOrderExists env (.axiosError (some 404) msg) dto.orderId =
      .error (.notFoundException dto.orderId) := by
    simp [validateOrderExists]
  exact ⟨hv, by simp [create, hv]⟩

/-- C1: when the Order Lookup call fails for a reason other than a 404
(`status ≠ some 404` covers network errors without a response and non-404
statuses), `validateOrderExists` is environment-dependent: in production it
fails with the validation-unavailable error and `create` aborts with the
store unchanged; in any other environment it returns successfully with no
summary and `create` proceeds to persist the transaction. -/
theorem validateOrderExists_env_dependent_on_error (env : Option String)
    (status : Option Nat) (msg : String) (now : Nat) (genId : String)
    (dto : CreatePaymentTransactionDto) (store : Store)
    (h : status ≠ some 404) :
    (env = some "production" →
      validateOrderExists env (.axiosError status msg) dto.orderId =
        .error (.failedToValidate ("Failed to validate order: " ++ msg))
      ∧ (create env (.axiosError status msg) now genId dto store).1 =
          .error (.failedToValidate ("Failed to validate order: " ++ msg))
      ∧ (create env (.axiosError status msg) now genId dto store).2.1 = store)
    ∧ (env ≠ some "production" →
      validateOrderExists env (.axiosError status msg) dto.orderId = .ok none
      ∧ (create env (.axiosError status msg) now genId dto store).1 =
          .ok (mapToResponseDto (mkDoc dto now genId))
      ∧ (create env (.axiosError status msg) now genId dto store).2.1 =
          store ++ [mkDoc dto now genId]) := by
  constructor
  · intro he
    subst he
    have hv : validateOrderExists (some "production")
        (.axiosError status msg) dto.orderId =
        .error (.failedToValidate ("Failed to validate order: " ++ msg)) := by
      simp [validateOrderExists, h]
    exact ⟨hv, by simp [create, hv], by simp [create, hv]⟩
  · intro he
    have hv : validateOrderExists env (.axiosError status msg) dto.orderId =
        .ok none := by
      simp [validateOrderExists, h, he]
    have hc := create_validated env (.axiosError status msg) now genId dto
      store none hv
    exact ⟨hv, by rw [hc], by rw [hc]⟩

/-- Witness for C1: with `NODE_ENV` unset and a network error carrying no
HTTP response, validation returns successfully with no summary. -/
theorem validateOrderExists_env_dependent_on_error_witness :
    validateOrderExists none (.axiosError none "connect ECONNREFUSED")
      sampleDto.orderId = .ok none :=
  ((validateOrderExists_env_dependent_on_error none none
      "connect ECONNREFUSED" 0 "t1" sampleDto [] (by decide)).2
    (by decide)).1

/-- C6: a create input with a non-positive amount is rejected by the
validation pipe with `invalidInput`; for every lookup outcome the result and
store are the same and the trace is empty, so neither the collaborator nor
the store is consulted and nothing is persisted. -/
theorem handleCreate_rejects_nonpositive_amount (env : Option String)
    (lookup : LookupOutcome) (now : Nat) (genId : String)
    (dto : CreatePaymentTransactionDto) (store : Store)
    (h : dto.amount ≤ 0) :
    handleCreate env lookup now genId dto store =
      (.error .invalidInput, store, []) := by
  have h2 : ¬ (0 < dto.amount) := not_lt.mpr h
  simp [handleCreate, validCreateDto, h2]

/-- Witness for C6: an amount of -5 is rejected with `invalidInput`. -/
theorem handleCreate_rejects_nonpositive_amount_witness :
    negDto.amount ≤ 0
    ∧ handleCreate none (.ok sampleOrder) 0 "t1" negDto [] =
        (.error .invalidInput, [], []) :=
  ⟨by decide,
   handleCreate_rejects_nonpositive_amount none (.ok sampleOrder) 0 "t1"
     negDto [] (by decide)⟩

/-- C3: a valid create input whose referenced order exists yields a response
carrying the generated id, with `createdAt ≤ updatedAt`, echoing every
submitted field unchanged except currency (defaulted to UAH when absent) and
transactionTime (defaulted to the creation time when absent). -/
theorem create_response_echoes_input (env : Option String)
    (r : OrderResponse) (now : Nat) (genId : String)
    (dto : CreatePaymentTransactionDto) (store : Store)
    (h : validCreateDto dto = true) :
    ∃ resp, (handleCreate env (.ok r) now genId dto store).1 = .ok resp
      ∧ resp.id = genId
      ∧ resp.createdAt ≤ resp.updatedAt
      ∧ resp.orderId = dto.orderId
      ∧ resp.amount = dto.amount
      ∧ resp.type = dto.type
      ∧ resp.status = dto.status
      ∧ resp.paymentMethod = dto.paymentMethod
      ∧ resp.transactionReference = dto.transactionReference
      ∧ resp.description = dto.description
      ∧ resp.processedBy = dto.processedBy
      ∧ resp.metadata = dto.metadata
      ∧ resp.currency = dto.currency.getD Currency.UAH
      ∧ resp.transactionTime = dto.transactionTime.getD now := by
  have hc := create_validated env (.ok r) now genId dto store (some r) rfl
  exact ⟨mapToResponseDto (mkDoc dto now genId),
    by simp [handleCreate, h, hc, Except.mapError],
    rfl, Nat.le_refl _, rfl, rfl, rfl, rfl, rfl, rfl, rfl, rfl, rfl, rfl,
    rfl⟩

/-- Witness for C3 at the sample input. -/
theorem create_response_echoes_input_witness :
    validCreateDto sampleDto = true
    ∧ ∃ resp,
      (handleCreate none (.ok sampleOrder) 0 "t1" sampleDto []).1 = .ok resp
      ∧ resp.id = "t1"
      ∧ resp.createdAt ≤ resp.updatedAt
      ∧ resp.orderId = sampleDto.orderId
      ∧ resp.amount = sampleDto.amount
      ∧ resp.type = sampleDto.type
      ∧ resp.status = sampleDto.status
      ∧ resp.paymentMethod = sampleDto.paymentMethod
      ∧ resp.transactionReference = sampleDto.transactionReference
      ∧ resp.description = sampleDto.description
      ∧ resp.processedBy = sampleDto.processedBy
      ∧ resp.metadata = sampleDto.metadata
      ∧ resp.currency = sampleDto.currency.getD Currency.UAH
      ∧ resp.transactionTime = sampleDto.transactionTime.getD 0 :=
  ⟨by decide,
   create_response_echoes_input none sampleOrder 0 "t1" sampleDto []
     (by decide)⟩

/-- C7 counterexample: at a concrete input with absent `transactionTime`,
the default-assignment step does not precede the validator call in the trace
of `create` — the validator is invoked first. -/
theorem create_normalize_before_validate_ce :
    Step.assignTransactionTime ∈
      (create none (.ok sampleOrder) 0 "t1" bareDto []).2.2
    ∧ Step.callValidator ∈
        (create none (.ok sampleOrder) 0 "t1" bareDto []).2.2
    ∧ ¬ (((create none (.ok sampleOrder) 0 "t1" bareDto []).2.2).indexOf
          Step.assignTransactionTime <
        ((create none (.ok sampleOrder) 0 "t1" bareDto []).2.2).indexOf
          Step.callValidator) := by
  decide

/-- C7 amended: `create` invokes the Order Validator first; only after
validation succeeds does it normalize the input (absent `transactionTime` to
the current time, absent `currency` to UAH), and the save comes last. -/
theorem create_validates_then_normalizes (env : Option String)
    (lookup : LookupOutcome) (now : Nat) (genId : String)
    (dto : CreatePaymentTransactionDto) (store : Store) :
    ((create env lookup now genId dto store).2.2).head? =
      some Step.callValidator
    ∧ (∀ r, validateOrderExists env lookup dto.orderId = Except.ok r →
        (create env lookup now genId dto store).2.2 =
          Step.callValidator ::
            ((if dto.transactionTime.isNone then [Step.assignTransactionTime]
              else []) ++
             (if dto.currency.isNone then [Step.assignCurrency] else []) ++
             [Step.save])) := by
  constructor
  · cases hv : validateOrderExists env lookup dto.orderId <;>
      simp [create, hv]
  · intro r hv
    rw [create_validated env lookup now genId dto store r hv]

/-- Witness for C7's amended statement at a concrete input. -/
theorem create_validates_then_normalizes_witness :
    (create none (.ok sampleOrder) 5 "t2" bareDto []).2.2 =
      Step.callValidator ::
        ((if bareDto.transactionTime.isNone then [Step.assignTransactionTime]
          else []) ++
         (if bareDto.currency.isNone then [Step.assignCurrency] else []) ++
         [Step.save]) :=
  (create_validates_then_normalizes none (.ok sampleOrder) 5 "t2" bareDto
      []).2 (some sampleOrder) rfl

/-- C10: `findByOrderId` and `getCountsByOrderIds` are read-only — they
return the store unchanged — and `deleteByOrderId` reports the number of
matching records and keeps exactly the records of every other orderId. -/
theorem queries_readonly_and_delete_frame (dto : GetPaymentTransactionsDto)
    (requestDto : PaymentTransactionCountsRequestDto) (oid : String)
    (store : Store) :
    (findByOrderId dto store).2 = store
    ∧ (getCountsByOrderIds requestDto store).2 = store
    ∧ (deleteByOrderId oid store).1 =
        (store.filter (fun d => d.orderId == oid)).length
    ∧ ∀ d, d ∈ (deleteByOrderId oid store).2 ↔
        (d ∈ store ∧ d.orderId ≠ oid) := by
  refine ⟨rfl, rfl, rfl, ?_⟩
  intro d
  simp [deleteByOrderId, List.mem_filter]

instance : IsTrans PaymentTransaction txTimeGe :=
  ⟨fun _ _ _ hab hbc => le_trans hbc hab⟩

instance : IsTotal PaymentTransaction txTimeGe :=
  ⟨fun a b => Nat.le_total b.transactionTime a.transactionTime⟩

/-- C4: `findByOrderId` returns exactly the stored records with the requested
orderId, sorted by `transactionTime` descending, after skipping `from`
records and keeping at most `size` of the rest; its result carries only
records of that order, is descending in `transactionTime`, never exceeds
`size` entries, and is empty whenever the offset is at or beyond the number
of matching records (in particular when none match) — never an error. -/
theorem findByOrderId_paginates_sorted (dto : GetPaymentTransactionsDto)
    (store : Store) (h1 : 1 ≤ dto.size) (h2 : dto.size ≤ 100) :
    (findByOrderId dto store).1 =
      (((List.insertionSort txTimeGe
        (store.filter (fun d => d.orderId == dto.orderId))).drop
          dto.fromIdx).take dto.size).map mapToResponseDto
    ∧ (List.insertionSort txTimeGe
        (store.filter (fun d => d.orderId == dto.orderId))).Perm
          (store.filter (fun d => d.orderId == dto.orderId))
    ∧ List.Pairwise
        (fun a b : PaymentTransactionResponseDto =>
          b.transactionTime ≤ a.transactionTime)
        (findByOrderId dto store).1
    ∧ (∀ x ∈ (findByOrderId dto store).1, x.orderId = dto.orderId)
    ∧ (findByOrderId dto store).1.length ≤ dto.size
    ∧ ((store.filter (fun d => d.orderId == dto.orderId)).length ≤
        dto.fromIdx → (findByOrderId dto store).1 = []) := by
  have hperm := List.perm_insertionSort txTimeGe
    (store.filter (fun d => d.orderId == dto.orderId))
  have hpair := List.sorted_insertionSort txTimeGe
    (store.filter (fun d => d.orderId == dto.orderId))
  have hsub : List.Sublist
      (((List.insertionSort txTimeGe
        (store.filter (fun d => d.orderId == dto.orderId))).drop
          dto.fromIdx).take dto.size)
      (List.insertionSort txTimeGe
        (store.filter (fun d => d.orderId == dto.orderId))) :=
    (List.take_sublist _ _).trans (List.drop_sublist _ _)
  refine ⟨rfl, hperm, ?_, ?_, ?_, ?_⟩
  · show List.Pairwise
      (fun a b : PaymentTransactionResponseDto =>
        b.transactionTime ≤ a.transactionTime)
      (List.map mapToResponseDto
        (List.take dto.size (List.drop dto.fromIdx
          (List.insertionSort txTimeGe
            (store.filter (fun d => d.orderId == dto.orderId))))))
    rw [List.pairwise_map]
    refine (hpair.sublist hsub).imp ?_
    intro a b hab
    exact hab
  · intro x hx
    obtain ⟨y, hy, rfl⟩ := List.mem_map.mp hx
    have hy2 : y ∈ store.filter (fun d => d.orderId == dto.orderId) :=
      hperm.subset (hsub.subset hy)
    have := List.of_mem_filter hy2
    exact eq_of_beq this
  · show (List.map mapToResponseDto
      (List.take dto.size (List.drop dto.fromIdx
        (List.insertionSort txTimeGe
          (store.filter (fun d => d.orderId == dto.orderId)))))).length ≤
            dto.size
    rw [List.length_map]
    exact List.length_take_le _ _
  · intro hlen
    have hdrop : List.drop dto.fromIdx
        (List.insertionSort txTimeGe
          (store.filter (fun d => d.orderId == dto.orderId))) = [] :=
      List.drop_eq_nil_of_le (by rw [hperm.length_eq]; exact hlen)
    show List.map mapToResponseDto
      (List.take dto.size (List.drop dto.fromIdx
        (List.insertionSort txTimeGe
          (store.filter (fun d => d.orderId == dto.orderId))))) = []
    rw [hdrop]
    simp

/-- A sample list query with the default pagination. -/
def getDto : GetPaymentTransactionsDto := { orderId := uuidA }

/-- Witness for C4 at the default pagination over the empty store. -/
theorem findByOrderId_paginates_sorted_witness :
    (findByOrderId getDto []).1.length ≤ getDto.size :=
  (findByOrderId_paginates_sorted getDto [] (by decide)
    (by decide)).2.2.2.2.1

/-- Writing a list of key/value pairs into a record leaves keys outside the
list untouched. -/
theorem recFold_get_of_not_mem (l : List (String × Nat)) (m0 : CountsRecord)
    (x : String) (hx : ∀ p ∈ l, p.1 ≠ x) :
    (l.foldl (fun m g => recSet m g.1 g.2) m0) x = m0 x := by
  induction l generalizing m0 with
  | nil => rfl
  | cons a t ih =>
      simp only [List.foldl_cons]
      rw [ih _ (fun p hp => hx p (List.mem_cons_of_mem a hp))]
      have hax : ¬ (x = a.1) :=
        fun hcontra => (hx a (List.mem_cons_self a t)) hcontra.symm
      simp [recSet, hax]

/-- Writing a list of pairs with pairwise-distinct keys into a record makes
each listed key read back its listed value. -/
theorem recFold_get_of_mem (l : List (String × Nat)) (m0 : CountsRecord)
    (x : String) (v : Nat) (hnd : (l.map Prod.fst).Nodup)
    (hv : (x, v) ∈ l) :
    (l.foldl (fun m g => recSet m g.1 g.2) m0) x = some v := by
  induction l generalizing m0 with
  | nil => cases hv
  | cons a t ih =>
      simp only [List.foldl_cons]
      rw [List.map_cons] at hnd
      have hnd' := List.nodup_cons.mp hnd
      rcases List.mem_cons.mp hv with heq | hmem
      · have ha : a = (x, v) := heq.symm
        subst ha
        rw [recFold_get_of_not_mem t _ x ?_]
        · simp [recSet]
        · intro p hp hpx
          exact hnd'.1 (List.mem_map.mpr ⟨p, hp, hpx⟩)
      · exact ih _ hnd'.2 hmem

/-- The zero-count pass of `getCountsByOrderIds`: after it, every requested
id reads 0 and every other key is untouched. -/
theorem countsInit_get (ids : List String) (m0 : CountsRecord) (x : String) :
    (ids.foldl (fun m oid => recSet m oid 0) m0) x =
      if x ∈ ids then some 0 else m0 x := by
  induction ids generalizing m0 with
  | nil => simp
  | cons a t ih =>
      simp only [List.foldl_cons, ih]
      by_cases hx : x ∈ t
      · simp [hx, List.mem_cons]
      · by_cases hxa : x = a
        · subst hxa
          simp [hx, recSet]
        · simp [hx, hxa, recSet, List.mem_cons]

/-- C5: the record produced by `getCountsByOrderIds` has exactly the distinct
requested ids as keys (duplicates collapse; every other key is absent), and
each requested id reads the total number of stored records with that
orderId — 0 when there are none; in particular the empty request yields the
record with no keys. -/
theorem getCountsByOrderIds_spec
    (requestDto : PaymentTransactionCountsRequestDto) (store : Store) :
    ∀ k, (getCountsByOrderIds requestDto store).1 k =
      if k ∈ requestDto.orderIds
      then some ((store.filter (fun d => d.orderId == k)).length)
      else none := by
  intro k
  have hkeys : (aggregateCounts store requestDto.orderIds).map Prod.fst =
      ((matchedDocs store requestDto.orderIds).map
        (fun d => d.orderId)).dedup := by
    unfold aggregateCounts
    rw [List.map_map]
    have hcomp : (Prod.fst ∘ fun oid =>
        (oid, ((matchedDocs store requestDto.orderIds).filter
          (fun d => d.orderId == oid)).length)) = (id : String → String) :=
      rfl
    rw [hcomp, List.map_id]
  have hnd : ((aggregateCounts store requestDto.orderIds).map
      Prod.fst).Nodup := by
    rw [hkeys]
    exact List.nodup_dedup _
  by_cases hk : k ∈ requestDto.orderIds
  · by_cases hex : k ∈ (matchedDocs store requestDto.orderIds).map
        (fun d => d.orderId)
    · have hkd : k ∈ ((matchedDocs store requestDto.orderIds).map
          (fun d => d.orderId)).dedup := List.mem_dedup.mpr hex
      have hmem : (k, ((matchedDocs store requestDto.orderIds).filter
          (fun d => d.orderId == k)).length) ∈
          aggregateCounts store requestDto.orderIds := by
        unfold aggregateCounts
        exact List.mem_map_of_mem _ hkd
      have hget := recFold_get_of_mem
        (aggregateCounts store requestDto.orderIds)
        (requestDto.orderIds.foldl (fun m oid => recSet m oid 0)
          (fun _ => none)) k _ hnd hmem
      have hfeq : (matchedDocs store requestDto.orderIds).filter
          (fun d => d.orderId == k) =
          store.filter (fun d => d.orderId == k) := by
        unfold matchedDocs
        rw [List.filter_filter]
        refine List.filter_congr ?_
        intro d _
        by_cases hdk : d.orderId = k
        · simp [hdk, hk]
        · simp [hdk]
      simp only [getCountsByOrderIds]
      rw [hget, hfeq]
      simp [hk]
    · have hnotkey : ∀ p ∈ aggregateCounts store requestDto.orderIds,
          p.1 ≠ k := by
        intro p hp hpk
        apply hex
        have hmap : p.1 ∈ (aggregateCounts store requestDto.orderIds).map
            Prod.fst := List.mem_map_of_mem _ hp
        rw [hkeys] at hmap
        exact hpk ▸ List.mem_dedup.mp hmap
      have hzero : store.filter (fun d => d.orderId == k) = [] := by
        rw [List.filter_eq_nil_iff]
        intro d hd hdk
        apply hex
        have hdk' : d.orderId = k := eq_of_beq hdk
        refine List.mem_map.mpr ⟨d, ?_, hdk'⟩
        unfold matchedDocs
        refine List.mem_filter.mpr ⟨hd, ?_⟩
        rw [hdk']
        simpa using hk
      simp only [getCountsByOrderIds]
      rw [recFold_get_of_not_mem _ _ _ hnotkey, countsInit_get]
      simp [hk, hzero]
  · have hnotkey : ∀ p ∈ aggregateCounts store requestDto.orderIds,
        p.1 ≠ k := by
      intro p hp hpk
      have hmap : p.1 ∈ (aggregateCounts store requestDto.orderIds).map
          Prod.fst := List.mem_map_of_mem _ hp
      rw [hkeys] at hmap
      obtain ⟨d, hd, hpd⟩ := List.mem_map.mp (List.mem_dedup.mp hmap)
      have hdid : d.orderId ∈ requestDto.orderIds := by
        have := List.of_mem_filter hd
        simpa using this
      exact hk (hpk ▸ hpd ▸ hdid)
    simp only [getCountsByOrderIds]
    rw [recFold_get_of_not_mem _ _ _ hnotkey, countsInit_get]
    simp [hk]

/-- In a list sorted by a reflexive comparator, an element occurs within the
first `size` entries as soon as the number of entries the comparator places
at or before it is at most `size`. -/
theorem mem_take_of_sorted_countP {α : Type _} (r : α → α → Prop)
    [DecidableRel r] (href : ∀ x, r x x) (a : α) :
    ∀ (l : List α) (size : Nat), a ∈ l → List.Pairwise r l →
      l.countP (fun x => decide (r x a)) ≤ size → a ∈ l.take size := by
  intro l
  induction l with
  | nil => intro size h; cases h
  | cons b t ih =>
      intro size hmem hpair hcnt
      rcases List.mem_cons.mp hmem with heq | hmemt
      · subst heq
        rw [List.countP_cons_of_pos (fun x => decide (r x a)) t
          (by simpa using href a)] at hcnt
        obtain ⟨n, rfl⟩ : ∃ n, size = n + 1 := ⟨size - 1, by omega⟩
        rw [List.take_succ_cons]
        exact List.mem_cons_self a _
      · have hba : r b a := (List.pairwise_cons.mp hpair).1 a hmemt
        rw [List.countP_cons_of_pos (fun x => decide (r x a)) t
          (by simpa using hba)] at hcnt
        obtain ⟨n, rfl⟩ : ∃ n, size = n + 1 := ⟨size - 1, by omega⟩
        rw [List.take_succ_cons]
        exact List.mem_cons_of_mem _
          (ih n hmemt (List.pairwise_cons.mp hpair).2 (by omega))

/-- A stored document for the sample order with `transactionTime` 100. -/
def oldDoc : PaymentTransaction :=
  { _id := "tx0", orderId := uuidA, amount := 5,
    currency := Currency.UAH, type := TransactionType.PAYMENT,
    status := TransactionStatus.COMPLETED,
    paymentMethod := PaymentMethod.CARD, transactionReference := none,
    description := none, transactionTime := 100, processedBy := none,
    metadata := none, createdAt := 0, updatedAt := 0 }

/-- A valid create request whose `transactionTime` (50) lies before
`oldDoc`'s. -/
def lateDto : CreatePaymentTransactionDto :=
  { sampleDto with transactionTime := some 50 }

/-- C8 counterexample: with a record at time 100 already stored for the same
order, creating a transaction at time 50 and then listing with `size = 1`,
`from = 0` does not return the created record — the pre-existing, more
recent one fills the page. -/
theorem create_then_find_roundtrip_ce :
    validCreateDto lateDto = true
    ∧ (create none (.ok sampleOrder) 50 "tx1" lateDto [oldDoc]).1 =
        .ok (mapToResponseDto (mkDoc lateDto 50 "tx1"))
    ∧ mapToResponseDto (mkDoc lateDto 50 "tx1") ∉
        (findByOrderId { orderId := uuidA, size := 1, fromIdx := 0 }
          (create none (.ok sampleOrder) 50 "tx1" lateDto [oldDoc]).2.1).1 :=
  ⟨by decide, rfl, by decide⟩

/-- C8 amended: after a successful `create`, the created record is returned
by `findByOrderId` on the same orderId with `from = 0` provided fewer than
`size` already-stored records of that order carry a `transactionTime` at or
after the new record's (in particular, whenever the order had no prior
records and `size ≥ 1`). -/
theorem create_then_find_roundtrip (env : Option String)
    (lookup : LookupOutcome) (now : Nat) (genId : String)
    (dto : CreatePaymentTransactionDto) (store : Store) (size : Nat)
    (r : Option OrderResponse)
    (hok : validateOrderExists env lookup dto.orderId = .ok r)
    (hcount : ((store.filter (fun d => d.orderId == dto.orderId)).countP
        (fun d => decide (dto.transactionTime.getD now ≤
          d.transactionTime))) < size) :
    (create env lookup now genId dto store).1 =
      .ok (mapToResponseDto (mkDoc dto now genId))
    ∧ mapToResponseDto (mkDoc dto now genId) ∈
        (findByOrderId { orderId := dto.orderId, size := size, fromIdx := 0 }
          (create env lookup now genId dto store).2.1).1 := by
  have hc := create_validated env lookup now genId dto store r hok
  refine ⟨by rw [hc], ?_⟩
  rw [hc]
  have hdocmatch : ((mkDoc dto now genId).orderId == dto.orderId) = true := by
    simp [mkDoc]
  have hmatch : (store ++ [mkDoc dto now genId]).filter
      (fun d => d.orderId == dto.orderId) =
      store.filter (fun d => d.orderId == dto.orderId) ++
        [mkDoc dto now genId] := by
    rw [List.filter_append]
    simp [hdocmatch]
  simp only [findByOrderId, hmatch, List.drop_zero]
  have hperm := List.perm_insertionSort txTimeGe
    (store.filter (fun d => d.orderId == dto.orderId) ++
      [mkDoc dto now genId])
  have hpair := List.sorted_insertionSort txTimeGe
    (store.filter (fun d => d.orderId == dto.orderId) ++
      [mkDoc dto now genId])
  have hmem : mkDoc dto now genId ∈
      List.insertionSort txTimeGe
        (store.filter (fun d => d.orderId == dto.orderId) ++
          [mkDoc dto now genId]) :=
    hperm.mem_iff.mpr (by simp)
  have hcnt : (List.insertionSort txTimeGe
      (store.filter (fun d => d.orderId == dto.orderId) ++
        [mkDoc dto now genId])).countP
      (fun x => decide (txTimeGe x (mkDoc dto now genId))) ≤ size := by
    rw [List.Perm.countP_eq _ hperm, List.countP_append]
    have h1 : (store.filter (fun d => d.orderId == dto.orderId)).countP
        (fun x => decide (txTimeGe x (mkDoc dto now genId))) =
        (store.filter (fun d => d.orderId == dto.orderId)).countP
          (fun d => decide (dto.transactionTime.getD now ≤
            d.transactionTime)) := by
      refine List.countP_congr ?_
      intro d _
      simp [txTimeGe, mkDoc]
    have h2 : List.countP
        (fun x => decide (txTimeGe x (mkDoc dto now genId)))
        [mkDoc dto now genId] = 1 := by
      simp [txTimeGe]
    rw [h1, h2]
    omega
  exact List.mem_map_of_mem mapToResponseDto
    (mem_take_of_sorted_countP txTimeGe
      (fun x => Nat.le_refl x.transactionTime) (mkDoc dto now genId) _ size
      hmem hpair hcnt)

/-- Witness for C8's amended statement: on an empty store, the record created
from the sample input is returned by a `size = 1`, `from = 0` listing. -/
theorem create_then_find_roundtrip_witness :
    (create none (.ok sampleOrder) 7 "t9" sampleDto []).1 =
      .ok (mapToResponseDto (mkDoc sampleDto 7 "t9"))
    ∧ mapToResponseDto (mkDoc sampleDto 7 "t9") ∈
        (findByOrderId
          { orderId := sampleDto.orderId, size := 1, fromIdx := 0 }
          (create none (.ok sampleOrder) 7 "t9" sampleDto []).2.1).1 :=
  create_then_find_roundtrip none (.ok sampleOrder) 7 "t9" sampleDto [] 1
    (some sampleOrder) rfl (by decide)

end OrdersPayment
